import Mathlib

/-!
Shallow embedding of the Remote Execution & Job Submission subsystem of the
mcp_pykernel repository, together with theorems checking its specification.

The embedded source files are:
  src/src/cmsagent/tools/ssh_tools.py      (ssh_info_init, run_ssh_command, run_scp_transfer)
  src/src/cmsagent/tools/slurm_manager.py  (_parse_time_to_hours, set_slurm_defaults,
                                            add_slurm_defaults, prepare_sbatch_script_perlmutter)

Modelling conventions:
  * Python dicts with string keys/values are association lists `List (String × String)`
    with dict semantics (insertion order preserved, assignment overwrites in place).
  * The local filesystem is an oracle `FileSystem` (`os.path.exists`), and
    `os.path.expanduser` is an explicit function parameter `expand`.
  * Spawned external processes are an oracle `ProcBehavior` deciding, per argv,
    whether the process completes within the timeout, times out, or the spawn/IO
    raises.  The operating-system calls the code makes (process spawn, process
    kill, directory creation) are recorded in an `OsEvent` trace.
  * A Python function returning normally is `Except.ok`; an uncaught Python
    exception is `Except.error` (used for `prepare_sbatch_script_perlmutter`,
    whose dict subscripts can raise KeyError).
  * Python floats are modelled as exact rationals `ℚ`; `f"{x:.2f}"` formatting
    is modelled by `fmt2` (rounding to two decimals).
-/

/-- Python dict membership and subscript evaluation on an ordered association list:
`d.find` of the first (and, under the unique-key invariant, only) entry for `k`. -/
def dictGet (d : List (String × String)) (k : String) : Option String :=
  (d.find? (fun kv => kv.1 == k)).map (fun kv => kv.2)

/-- Python `k in d`. -/
def dictContains (d : List (String × String)) (k : String) : Bool :=
  d.any (fun kv => kv.1 == k)

/-- Python `d[k] = v`: overwrite in place if the key exists, else append. -/
def dictInsert : List (String × String) → String → String → List (String × String)
  | [], k, v => [(k, v)]
  | (k', v') :: rest, k, v =>
    if k' == k then (k', v) :: rest else (k', v') :: dictInsert rest k v

/-- Python `d.update(kvs)`: repeated assignment, in order. -/
def dictUpdate (d : List (String × String)) (kvs : List (String × String)) :
    List (String × String) :=
  kvs.foldl (fun acc kv => dictInsert acc kv.1 kv.2) d

/-- Python `d[k]` as an expression: `KeyError` when the key is absent. -/
def dictGetE (d : List (String × String)) (k : String) : Except String String :=
  match dictGet d k with
  | some v => Except.ok v
  | none => Except.error ("KeyError: " ++ k)

/-- The local filesystem oracle: `os.path.exists`. -/
structure FileSystem where
  pathExists : String → Bool

/-- Python `str.split(sep)` for a one-character separator, on character lists. -/
def splitOnChar (c : Char) : List Char → List (List Char)
  | [] => [[]]
  | x :: xs =>
    match splitOnChar c xs with
    | [] => [[]]
    | r :: rs => if x == c then [] :: r :: rs else (x :: r) :: rs

/-- Digits of a decimal literal to a natural number. -/
def digitsToNat (cs : List Char) : Nat :=
  cs.foldl (fun a c => a * 10 + (c.toNat - ('0').toNat)) 0

/-- Model of the Python builtin `int(str)`: optional surrounding whitespace,
optional sign, then one or more decimal digits; `none` models `ValueError`. -/
def pyInt (cs : List Char) : Option Int :=
  let cs := ((cs.dropWhile Char.isWhitespace).reverse.dropWhile Char.isWhitespace).reverse
  match cs with
  | [] => none
  | c :: rest =>
    if c == '+' then
      if !rest.isEmpty && rest.all Char.isDigit then some (digitsToNat rest) else none
    else if c == '-' then
      if !rest.isEmpty && rest.all Char.isDigit then some (-(digitsToNat rest : Int)) else none
    else
      if (c :: rest).all Char.isDigit then some (digitsToNat (c :: rest)) else none

/-- slurm_manager._parse_time_to_hours: `h, m, s = map(int, time_str.split(':'))`,
returning `h + m / 60 + s / 3600`; on `ValueError` (wrong arity or a part that is
not an integer) the warning path returns `0.0`. -/
def _parse_time_to_hours (time_str : String) : ℚ :=
  match (splitOnChar ':' time_str.data).map pyInt with
  | [some h, some m, some s] => (h : ℚ) + (m : ℚ) / 60 + (s : ℚ) / 3600
  | _ => 0

/-- True iff `time_str` parses as exactly three colon-separated integers
(the non-`ValueError` path of `_parse_time_to_hours`). -/
def parsesAsTriple (time_str : String) : Bool :=
  match (splitOnChar ':' time_str.data).map pyInt with
  | [some _, some _, some _] => true
  | _ => false

/-- `f"'{key}'='{value}'"` pairs joined by `", "`, in the mapping's insertion order. -/
def configSummary (d : List (String × String)) : String :=
  String.intercalate ", "
    (d.map (fun kv => "\x27" ++ kv.1 ++ "\x27=\x27" ++ kv.2 ++ "\x27"))

/-- slurm_manager.set_slurm_defaults: clear the config, insert the mandatory
`account`, merge the keyword arguments, and return the new state together with
the confirmation message.  (The global `slurm_config` is passed and returned
explicitly; the prior state is discarded by `slurm_config.clear()`.) -/
def set_slurm_defaults (slurm_config : List (String × String)) (account : String)
    (kwargs : List (String × String)) : List (String × String) × String :=
  let cleared : List (String × String) := []
  let cfg := dictInsert cleared "account" account
  let cfg := dictUpdate cfg kwargs
  let _ := slurm_config
  (cfg, "Slurm defaults set: " ++ configSummary cfg ++ ".")

/-- slurm_manager.add_slurm_defaults: with no keyword arguments return the no-op
message and leave the state alone; otherwise merge and return the full summary. -/
def add_slurm_defaults (slurm_config : List (String × String))
    (kwargs : List (String × String)) : List (String × String) × String :=
  if kwargs.isEmpty then
    (slurm_config, "No attributes provided to add. Please provide key-value pairs.")
  else
    let cfg := dictUpdate slurm_config kwargs
    (cfg, "Slurm defaults updated. Current config is now: " ++ configSummary cfg ++ ".")

/-- Python keyword binding for the source signature
`async def set_slurm_defaults(account: str, **kwargs)` (slurm_manager.py):
given the keyword-argument mapping of a call, the entry named `account` binds
the named parameter (a call without one raises `TypeError` before the body
runs), and only the remaining entries become `kwargs` — so the `kwargs` dict
inside the body can never contain the key `account`.  (Supplying `account`
both positionally and through the mapping also raises `TypeError`; positional
calls are not modelled.) -/
def bindSetSlurmDefaultsArgs (args : List (String × String)) :
    Except String (String × List (String × String)) :=
  match dictGet args "account" with
  | none =>
    Except.error
      "TypeError: set_slurm_defaults() missing 1 required positional argument: \x27account\x27"
  | some v => Except.ok (v, args.filter (fun kv => !(kv.1 == "account")))

/-- A tool-boundary call of `set_slurm_defaults` with a keyword-argument
mapping: Python keyword binding followed by the function body. -/
def set_slurm_defaults_call (slurm_config : List (String × String))
    (args : List (String × String)) : Except String (List (String × String) × String) :=
  match bindSetSlurmDefaultsArgs args with
  | Except.error e => Except.error e
  | Except.ok (account, kwargs) => Except.ok (set_slurm_defaults slurm_config account kwargs)

/-- Fixed-point rendering of an integer number of hundredths, as produced by
Python `f"{x:.2f}"` after the value has been rounded to hundredths. -/
def fmt2Int (n : Int) : String :=
  let sign := if n < 0 then "-" else ""
  let m := n.natAbs
  let fp := m % 100
  sign ++ toString (m / 100) ++ "." ++ (if fp < 10 then "0" ++ toString fp else toString fp)

/-- Model of Python `f"{x:.2f}"`: round to hundredths and render.  (Exact on the
values arising in this development, which are exact multiples of `1/100`.) -/
def fmt2 (q : ℚ) : String :=
  fmt2Int (round (q * 100))

/-- The result value of slurm_manager.prepare_sbatch_script_perlmutter:
either the error `TextContent` (returned as a one-element list in the source)
or the single success `TextContent` holding the verification message and script. -/
inductive PrepResult where
  | errorText (text : String)
  | okText (text : String)
deriving DecidableEq, Repr

/-- slurm_manager.prepare_sbatch_script_perlmutter.  `Except.error` models an
uncaught Python exception: the f-string rendering subscripts
`slurm_config['account']` and `slurm_config['queue']`, each of which can raise
`KeyError` (only `account` and `partition` are checked beforehand);
`slurm_config.get('constraint', 'cpu')` cannot raise. -/
def prepare_sbatch_script_perlmutter (fs : FileSystem)
    (slurm_config : List (String × String)) (job_script_path modules : String)
    (nodes : Int) (time_limit : String) : Except String PrepResult :=
  if !(dictContains slurm_config "account" && dictContains slurm_config "partition") then
    Except.ok (PrepResult.errorText
      "Error: Slurm defaults (account, partition) are not set. Please run \x60set_slurm_defaults\x60 first.")
  else if !(fs.pathExists job_script_path) then
    Except.ok (PrepResult.errorText
      ("Error: The job script path \x27" ++ job_script_path ++ "\x27 does not exist. Please provide a valid path."))
  else
    let hours := _parse_time_to_hours time_limit
    let node_hours := (nodes : ℚ) * hours
    match dictGetE slurm_config "account" with
    | Except.error e => Except.error e
    | Except.ok acct =>
      match dictGetE slurm_config "queue" with
      | Except.error e => Except.error e
      | Except.ok queue =>
        let constraint := (dictGet slurm_config "constraint").getD "cpu"
        let sbatch_script :=
          "#!/bin/bash\n#SBATCH -A " ++ acct ++ "\n#SBATCH -q " ++ queue ++
          "\n#SBATCH -C " ++ constraint ++ "\n#SBATCH -N " ++ toString nodes ++
          "\n#SBATCH -t " ++ time_limit ++ "\n#SBATCH --job-name=mcp_submitted_job\n\n" ++
          modules ++ "\n\necho \"--- Job started at $(date) ---\"\n\n" ++
          "# Execute the user\x27s job script\ndate\nsrun " ++ job_script_path ++
          "\ndate\n\necho \"--- Job finished at $(date) ---\"\n"
        let verification_message :=
          "VERIFICATION REQUIRED:\n" ++
          "Please review the following sbatch script. This job will use approximately " ++
          fmt2 node_hours ++ " node-hours.\n" ++
          "If this looks correct, you can pass the script content to the \x60submit_sbatch_script\x60 tool."
        Except.ok (PrepResult.okText
          (verification_message ++ "\n" ++ "\x60\x60\x60bash\n" ++ sbatch_script ++ "\n\x60\x60\x60"))

/-- The session-wide SSH connection configuration (`ssh_config` dict with keys
`host`, `username`, `key_path`, each initially `None`). -/
structure SshConfig where
  host : Option String
  username : Option String
  key_path : Option String
deriving DecidableEq, Repr

/-- Python truthiness of an `Optional[str]`: `None` and `""` are falsy. -/
def truthy : Option String → Bool
  | none => false
  | some s => !s.isEmpty

/-- `all([ssh_config['host'], ssh_config['username'], ssh_config['key_path']])`. -/
def sshInitialized (c : SshConfig) : Bool :=
  truthy c.host && truthy c.username && truthy c.key_path

/-- The not-initialized error message shared by both executors. -/
def notInitializedMsg : String :=
  "SSH connection not initialized, please first use tool ssh_connect."

/-- ssh_tools.ssh_info_init: expand the key path, verify the key file exists,
and only then overwrite all three configuration fields. -/
def ssh_info_init (expand : String → String) (fs : FileSystem) (ssh_config : SshConfig)
    (host username key_path : String) : SshConfig × String :=
  let key_full_path := expand key_path
  if !(fs.pathExists key_full_path) then
    (ssh_config,
     "Error: SSH private key " ++ key_full_path ++ " does not exist. Please check the path.")
  else
    ({ host := some host, username := some username, key_path := some key_path },
     "SSH configuration: " ++ username ++ "@" ++ host ++ " (key: " ++ key_path ++ ")")

/-- Operating-system calls an executor makes, recorded as a trace: spawning an
external process with an argv, terminating the spawned process, and
`os.makedirs`.  The source never issues a kill; the constructor exists so that
the spec's termination-on-timeout claim can be stated over traces. -/
inductive OsEvent where
  | spawn (argv : List String)
  | kill
  | makedirs (dir : String)
deriving DecidableEq, Repr

/-- Whether an event is a termination of the spawned process. -/
def OsEvent.isKill : OsEvent → Bool
  | OsEvent.kill => true
  | _ => false

/-- Environment oracle for one spawned process: it completes within the timeout
with an exit code and decoded stdout/stderr, or times out (`asyncio.TimeoutError`),
or an exception is raised (`spawned` records whether the process had been
created by the time the exception occurred). -/
inductive ProcBehavior where
  | completes (exit_code : Int) (stdout stderr : String)
  | timesOut
  | raises (spawned : Bool) (msg : String)

/-- The result dict of ssh_tools.run_ssh_command; a field holds `none` when the
corresponding key is absent from the returned dict. -/
structure CommandResult where
  success : Bool
  exit_code : Option Int := none
  stdout : Option String := none
  stderr : Option String := none
  command : Option String := none
  error : Option String := none
deriving DecidableEq, Repr

/-- The result dict of ssh_tools.run_scp_transfer. -/
structure TransferResult where
  success : Bool
  exit_code : Option Int := none
  stdout : Option String := none
  stderr : Option String := none
  operation : Option String := none
  local_path : Option String := none
  remote_path : Option String := none
  direction : Option String := none
  recursive : Option Bool := none
  error : Option String := none
deriving DecidableEq, Repr

/-- ssh_tools.run_ssh_command (source defaults: `timeout = 30`).  Returns the
result dict together with the trace of operating-system calls made. -/
def run_ssh_command (expand : String → String) (behavior : List String → ProcBehavior)
    (ssh_config : SshConfig) (command : String) (timeout : Nat) :
    CommandResult × List OsEvent :=
  if !sshInitialized ssh_config then
    ({ success := false, error := some notInitializedMsg }, [])
  else
    let ssh_cmd :=
      ["ssh", "-l", ssh_config.username.getD "", "-i",
       expand (ssh_config.key_path.getD ""), "-o", "StrictHostKeyChecking=no",
       "-o", "ConnectTimeout=10", ssh_config.host.getD "", command ++ "; exit"]
    match behavior ssh_cmd with
    | ProcBehavior.completes exit_code stdout stderr =>
      ({ success := true, exit_code := some exit_code, stdout := some stdout,
         stderr := some stderr, command := some command }, [OsEvent.spawn ssh_cmd])
    | ProcBehavior.timesOut =>
      ({ success := false, error := some ("timeout:(" ++ toString timeout ++ "sec)"),
         command := some command }, [OsEvent.spawn ssh_cmd])
    | ProcBehavior.raises spawned msg =>
      ({ success := false, error := some msg, command := some command },
       if spawned then [OsEvent.spawn ssh_cmd] else [])

/-- `f"{ssh_config['username']}@{ssh_config['host']}:{remote_path}"`. -/
def remote_location (ssh_config : SshConfig) (remote_path : String) : String :=
  ssh_config.username.getD "" ++ "@" ++ ssh_config.host.getD "" ++ ":" ++ remote_path

/-- Model of `posixpath.dirname`: everything up to the final slash, with
trailing slashes stripped unless the head is all slashes. -/
def dirname (p : String) : String :=
  let cs := p.data
  match cs.reverse.findIdx? (fun c => c == '/') with
  | none => ""
  | some k =>
    let head := cs.take (cs.length - k)
    if !head.isEmpty && !(head.all (fun c => c == '/')) then
      String.mk (head.reverse.dropWhile (fun c => c == '/')).reverse
    else
      String.mk head

/-- ssh_tools.run_scp_transfer (source defaults: `direction = "upload"`,
`recursive = False`, `timeout = 300`).  Returns the result dict together with
the trace of operating-system calls made (`os.makedirs` and process spawn). -/
def run_scp_transfer (expand : String → String) (fs : FileSystem)
    (behavior : List String → ProcBehavior) (ssh_config : SshConfig)
    (local_path remote_path : String) (direction : String) (recursive : Bool)
    (timeout : Nat) : TransferResult × List OsEvent :=
  if !sshInitialized ssh_config then
    ({ success := false, error := some notInitializedMsg }, [])
  else
    let scp_base :=
      ["scp", "-i", expand (ssh_config.key_path.getD ""), "-o",
       "StrictHostKeyChecking=no", "-o", "ConnectTimeout=10"]
    let scp_base := if recursive then scp_base ++ ["-r"] else scp_base
    let remote_loc := remote_location ssh_config remote_path
    match
      (if direction == "upload" then
        some (scp_base ++ [local_path, remote_loc],
              "Upload " ++ local_path ++ " -> " ++ remote_loc)
      else if direction == "download" then
        some (scp_base ++ [remote_loc, local_path],
              "Download " ++ remote_loc ++ " -> " ++ local_path)
      else none)
    with
    | none =>
      ({ success := false,
         error := some "Invalid direction. Must be \"upload\" or \"download\"." }, [])
    | some (scp_cmd, operation) =>
      if direction == "upload" && !(fs.pathExists local_path) then
        ({ success := false, error := some ("Local path does not exist: " ++ local_path),
           operation := some operation }, [])
      else
        let mkdirEvents :=
          if direction == "download" then
            let local_dir := dirname local_path
            if !local_dir.isEmpty && !(fs.pathExists local_dir) then
              [OsEvent.makedirs local_dir]
            else []
          else []
        match behavior scp_cmd with
        | ProcBehavior.completes exit_code stdout stderr =>
          ({ success := exit_code == 0, exit_code := some exit_code,
             stdout := some stdout, stderr := some stderr,
             operation := some operation, local_path := some local_path,
             remote_path := some remote_path, direction := some direction,
             recursive := some recursive }, mkdirEvents ++ [OsEvent.spawn scp_cmd])
        | ProcBehavior.timesOut =>
          ({ success := false,
             error := some ("Transfer timeout after " ++ toString timeout ++ " seconds"),
             operation := some operation, local_path := some local_path,
             remote_path := some remote_path }, mkdirEvents ++ [OsEvent.spawn scp_cmd])
        | ProcBehavior.raises spawned msg =>
          ({ success := false, error := some msg, operation := some operation,
             local_path := some local_path, remote_path := some remote_path },
           mkdirEvents ++ (if spawned then [OsEvent.spawn scp_cmd] else []))

theorem dictGet_cons (k' v' : String) (tl : List (String × String)) (k : String) :
    dictGet ((k', v') :: tl) k = if (k' == k) = true then some v' else dictGet tl k := by
  by_cases h : (k' == k) = true <;> simp [dictGet, List.find?_cons, h]

theorem dictContains_cons (k' v' : String) (tl : List (String × String)) (k : String) :
    dictContains ((k', v') :: tl) k = ((k' == k) || dictContains tl k) := by
  simp [dictContains, List.any_cons]

theorem dictGet_dictInsert_self (d : List (String × String)) (k v : String) :
    dictGet (dictInsert d k v) k = some v := by
  induction d with
  | nil => simp [dictInsert, dictGet]
  | cons hd tl ih =>
    obtain ⟨k', v'⟩ := hd
    by_cases h : (k' == k) = true
    · simp [dictInsert, h, dictGet_cons]
    · simp only [dictInsert, h, if_false, Bool.false_eq_true, ite_false, dictGet_cons]
      simpa [h] using ih

theorem dictGet_dictInsert_ne (d : List (String × String)) (k v key : String)
    (h : (k == key) = false) :
    dictGet (dictInsert d k v) key = dictGet d key := by
  induction d with
  | nil => simp [dictInsert, dictGet, List.find?_cons, h]
  | cons hd tl ih =>
    obtain ⟨k', v'⟩ := hd
    by_cases hk : (k' == k) = true
    · have : k' = k := by simpa using hk
      subst this
      simp [dictInsert, hk, dictGet_cons, h]
    · simp [dictInsert, hk, dictGet_cons, ih]

theorem dictContains_dictInsert (d : List (String × String)) (k v key : String) :
    dictContains (dictInsert d k v) key = (dictContains d key || (k == key)) := by
  induction d with
  | nil => simp [dictInsert, dictContains]
  | cons hd tl ih =>
    obtain ⟨k', v'⟩ := hd
    by_cases hk : (k' == k) = true
    · have : k' = k := by simpa using hk
      subst this
      simp [dictInsert, hk, dictContains_cons]
      tauto
    · simp [dictInsert, hk, dictContains_cons, ih, Bool.or_assoc]

theorem dictUpdate_nil (d : List (String × String)) : dictUpdate d [] = d := rfl

theorem dictUpdate_cons (d : List (String × String)) (kv : String × String)
    (tl : List (String × String)) :
    dictUpdate d (kv :: tl) = dictUpdate (dictInsert d kv.1 kv.2) tl := rfl

theorem dictGet_dictUpdate_not_mem (d kvs : List (String × String)) (key : String)
    (h : kvs.any (fun kv => kv.1 == key) = false) :
    dictGet (dictUpdate d kvs) key = dictGet d key := by
  induction kvs generalizing d with
  | nil => rfl
  | cons hd tl ih =>
    rw [List.any_cons, Bool.or_eq_false_iff] at h
    rw [dictUpdate_cons, ih _ h.2, dictGet_dictInsert_ne _ _ _ _ h.1]

theorem dictContains_dictUpdate (d kvs : List (String × String)) (key : String) :
    dictContains (dictUpdate d kvs) key =
      (dictContains d key || kvs.any (fun kv => kv.1 == key)) := by
  induction kvs generalizing d with
  | nil => simp [dictUpdate]
  | cons hd tl ih =>
    rw [dictUpdate_cons, ih, dictContains_dictInsert, List.any_cons, Bool.or_assoc]

theorem dictGet_dictUpdate_mem (d kvs : List (String × String)) (k v : String)
    (hdist : kvs.Pairwise (fun a b => a.1 ≠ b.1)) (hmem : (k, v) ∈ kvs) :
    dictGet (dictUpdate d kvs) k = some v := by
  induction kvs generalizing d with
  | nil => cases hmem
  | cons hd tl ih =>
    rw [List.pairwise_cons] at hdist
    rw [dictUpdate_cons]
    rcases List.mem_cons.mp hmem with heq | hmem
    · subst heq
      have hnot : tl.any (fun kv => kv.1 == k) = false := by
        rw [List.any_eq_false]
        intro kv hkv
        have := hdist.1 kv hkv
        simp only [ne_eq] at this
        simp [beq_eq_false_iff_ne]
        exact fun hc => this hc.symm
      rw [dictGet_dictUpdate_not_mem _ _ _ hnot, dictGet_dictInsert_self]
    · exact ih _ hdist.2 hmem

theorem keys_dictInsert (d : List (String × String)) (k v : String) :
    (dictInsert d k v).map Prod.fst =
      if dictContains d k then d.map Prod.fst else d.map Prod.fst ++ [k] := by
  induction d with
  | nil => simp [dictInsert, dictContains]
  | cons hd tl ih =>
    obtain ⟨k', v'⟩ := hd
    by_cases hk : (k' == k) = true
    · simp [dictInsert, hk, dictContains_cons]
    · simp only [dictInsert, hk, Bool.false_eq_true, ite_false, List.map_cons,
        dictContains_cons, Bool.false_or, ih]
      split <;> simp

theorem keys_dictUpdate (d kvs : List (String × String))
    (hdist : kvs.Pairwise (fun a b => a.1 ≠ b.1)) :
    (dictUpdate d kvs).map Prod.fst =
      d.map Prod.fst ++ (kvs.map Prod.fst).filter (fun key => !(dictContains d key)) := by
  induction kvs generalizing d with
  | nil => simp [dictUpdate]
  | cons hd tl ih =>
    rw [List.pairwise_cons] at hdist
    rw [dictUpdate_cons, ih _ hdist.2, keys_dictInsert, List.map_cons, List.filter_cons]
    have hfilter :
        (tl.map Prod.fst).filter (fun key => !(dictContains (dictInsert d hd.1 hd.2) key)) =
        (tl.map Prod.fst).filter (fun key => !(dictContains d key)) := by
      apply List.filter_congr
      intro x hx
      rcases List.mem_map.mp hx with ⟨kv, hkv, rfl⟩
      have hne : (hd.1 == kv.1) = false := by
        simp [beq_eq_false_iff_ne]
        exact hdist.1 kv hkv
      rw [dictContains_dictInsert, hne, Bool.or_false]
    rw [hfilter]
    by_cases hc : dictContains d hd.1 = true
    · simp [hc]
    · simp only [Bool.not_eq_true] at hc
      simp [hc]

/-- C1: the spec promises that every public operation returns a structured
result and never lets an exception escape; in particular `prepare` invoked with
`account` and `partition` present in the scheduler config and an existing job
script path is promised to return a rendered script.  The code violates this:
with `account` and `partition` set but `queue` unset, the f-string rendering
subscripts `slurm_config['queue']` and a `KeyError` escapes the operation. -/
theorem C1_prepare_raises_keyerror_on_missing_queue :
    prepare_sbatch_script_perlmutter ⟨fun _ => true⟩
      [("account", "m1234"), ("partition", "regular")]
      "/tmp/job.sh" "module load espresso" 1 "01:00:00" =
      Except.error "KeyError: queue" := by
  rfl

/-- C2: when the spawned process completes within the timeout, `run_ssh_command`
reports `success = true` regardless of the exit code, while `run_scp_transfer`
reports `success = true` exactly when the exit code is `0`, for uploads and
downloads alike. -/
theorem C2_success_conventions (expand : String → String) (fs : FileSystem)
    (cfg : SshConfig) (command local_path remote_path stdout stderr : String)
    (exit_code : Int) (recursive : Bool) (t₁ t₂ t₃ : Nat)
    (hinit : sshInitialized cfg = true)
    (hlocal : fs.pathExists local_path = true) :
    (run_ssh_command expand (fun _ => ProcBehavior.completes exit_code stdout stderr)
        cfg command t₁).1.success = true ∧
    ((run_scp_transfer expand fs (fun _ => ProcBehavior.completes exit_code stdout stderr)
        cfg local_path remote_path "upload" recursive t₂).1.success = true ↔ exit_code = 0) ∧
    ((run_scp_transfer expand fs (fun _ => ProcBehavior.completes exit_code stdout stderr)
        cfg local_path remote_path "download" recursive t₃).1.success = true ↔ exit_code = 0) := by
  refine ⟨?_, ?_, ?_⟩
  · simp [run_ssh_command, hinit]
  · simp [run_scp_transfer, hinit, hlocal]
  · simp [run_scp_transfer, hinit]

/-- Witness for C2 at a concrete initialized configuration, existing local path
and nonzero exit code, in both directions. -/
theorem C2_success_conventions_witness :
    (run_ssh_command id (fun _ => ProcBehavior.completes 7 "out" "err")
        ⟨some "h", some "u", some "k"⟩ "ls" 30).1.success = true ∧
    ((run_scp_transfer id ⟨fun _ => true⟩ (fun _ => ProcBehavior.completes 7 "out" "err")
        ⟨some "h", some "u", some "k"⟩ "/tmp/a" "/rem/b" "upload" false 300).1.success = true ↔
      (7 : Int) = 0) ∧
    ((run_scp_transfer id ⟨fun _ => true⟩ (fun _ => ProcBehavior.completes 7 "out" "err")
        ⟨some "h", some "u", some "k"⟩ "/tmp/a" "/rem/b" "download" false 120).1.success = true ↔
      (7 : Int) = 0) :=
  C2_success_conventions id ⟨fun _ => true⟩ ⟨some "h", some "u", some "k"⟩
    "ls" "/tmp/a" "/rem/b" "out" "err" 7 false 30 300 120 (by decide) rfl

/-- C3: any executor call made while some of host, username, key_path is unset
returns `success = false` with the not-initialized error, every other result
field absent, and an empty trace of operating-system calls — in particular no
process is spawned. -/
theorem C3_not_initialized_no_spawn (expand : String → String) (fs : FileSystem)
    (behavior : List String → ProcBehavior) (cfg : SshConfig)
    (command local_path remote_path direction : String) (recursive : Bool) (t₁ t₂ : Nat)
    (h : cfg.host = none ∨ cfg.username = none ∨ cfg.key_path = none) :
    run_ssh_command expand behavior cfg command t₁ =
      ({ success := false, error := some notInitializedMsg }, []) ∧
    run_scp_transfer expand fs behavior cfg local_path remote_path direction recursive t₂ =
      ({ success := false, error := some notInitializedMsg }, []) := by
  have hinit : sshInitialized cfg = false := by
    rcases h with h | h | h <;> simp [sshInitialized, truthy, h]
  constructor
  · simp [run_ssh_command, hinit]
  · simp [run_scp_transfer, hinit]

/-- Witness for C3 with only the host unset. -/
theorem C3_not_initialized_no_spawn_witness :
    run_ssh_command id (fun _ => ProcBehavior.timesOut)
        ⟨none, some "u", some "k"⟩ "ls" 30 =
      ({ success := false, error := some notInitializedMsg }, []) ∧
    run_scp_transfer id ⟨fun _ => true⟩ (fun _ => ProcBehavior.timesOut)
        ⟨none, some "u", some "k"⟩ "/tmp/a" "/rem/b" "upload" false 300 =
      ({ success := false, error := some notInitializedMsg }, []) :=
  C3_not_initialized_no_spawn id ⟨fun _ => true⟩ (fun _ => ProcBehavior.timesOut)
    ⟨none, some "u", some "k"⟩ "ls" "/tmp/a" "/rem/b" "upload" false 30 300 (Or.inl rfl)

/-- C4: `ssh_info_init` with a key path whose expansion does not exist returns
the key-not-found error and leaves the stored configuration unchanged; with an
existing key file it overwrites all three fields and returns the confirmation. -/
theorem C4_init_key_existence (expand : String → String) (fs : FileSystem)
    (cfg : SshConfig) (host username key_path : String) :
    (fs.pathExists (expand key_path) = false →
      ssh_info_init expand fs cfg host username key_path =
        (cfg, "Error: SSH private key " ++ expand key_path ++
          " does not exist. Please check the path.")) ∧
    (fs.pathExists (expand key_path) = true →
      ssh_info_init expand fs cfg host username key_path =
        ({ host := some host, username := some username, key_path := some key_path },
         "SSH configuration: " ++ username ++ "@" ++ host ++ " (key: " ++ key_path ++ ")")) := by
  constructor <;> intro h <;> simp [ssh_info_init, h]

/-- Witness for C4: both branches at concrete filesystems. -/
theorem C4_init_key_existence_witness :
    (ssh_info_init id ⟨fun _ => false⟩ ⟨some "h0", some "u0", some "k0"⟩ "h" "u" "/tmp/key" =
      (⟨some "h0", some "u0", some "k0"⟩,
       "Error: SSH private key " ++ id "/tmp/key" ++
         " does not exist. Please check the path.")) ∧
    (ssh_info_init id ⟨fun _ => true⟩ ⟨some "h0", some "u0", some "k0"⟩ "h" "u" "/tmp/key" =
      (⟨some "h", some "u", some "/tmp/key"⟩,
       "SSH configuration: " ++ "u" ++ "@" ++ "h" ++ " (key: " ++ "/tmp/key" ++ ")")) :=
  ⟨(C4_init_key_existence id ⟨fun _ => false⟩ ⟨some "h0", some "u0", some "k0"⟩
      "h" "u" "/tmp/key").1 rfl,
   (C4_init_key_existence id ⟨fun _ => true⟩ ⟨some "h0", some "u0", some "k0"⟩
      "h" "u" "/tmp/key").2 rfl⟩

/-- Counterexample to C5 as stated: at a concrete initialized configuration, a
run that times out does return the timeout failure, but the trace shows the
spawned process is never terminated — no kill call is made (the source has no
`process.kill()` in its `asyncio.TimeoutError` handler), so the claim that the
process "is no longer running afterward" is false. -/
theorem C5_counterexample_no_kill_on_timeout :
    (run_ssh_command id (fun _ => ProcBehavior.timesOut)
        ⟨some "h", some "u", some "k"⟩ "sleep 100" 30).1.success = false ∧
    (run_ssh_command id (fun _ => ProcBehavior.timesOut)
        ⟨some "h", some "u", some "k"⟩ "sleep 100" 30).1.error =
      some "timeout:(30sec)" ∧
    (run_ssh_command id (fun _ => ProcBehavior.timesOut)
        ⟨some "h", some "u", some "k"⟩ "sleep 100" 30).2 ≠ [] ∧
    ((run_ssh_command id (fun _ => ProcBehavior.timesOut)
        ⟨some "h", some "u", some "k"⟩ "sleep 100" 30).2.any OsEvent.isKill) = false := by
  decide

/-- C5 (amended): on timeout, `run_ssh_command` and `run_scp_transfer` return
`success = false` with an error embedding the timeout duration, but the spawned
process is not terminated by the operation: a process was spawned and no kill
call appears in the trace. -/
theorem C5_timeout_reports_duration_without_kill (expand : String → String)
    (fs : FileSystem) (cfg : SshConfig)
    (command local_path remote_path : String) (recursive : Bool) (t₁ t₂ t₃ : Nat)
    (hinit : sshInitialized cfg = true)
    (hlocal : fs.pathExists local_path = true) :
    ((run_ssh_command expand (fun _ => ProcBehavior.timesOut) cfg command t₁).1.success = false ∧
     (run_ssh_command expand (fun _ => ProcBehavior.timesOut) cfg command t₁).1.error =
       some ("timeout:(" ++ toString t₁ ++ "sec)") ∧
     (run_ssh_command expand (fun _ => ProcBehavior.timesOut) cfg command t₁).2 ≠ [] ∧
     ((run_ssh_command expand (fun _ => ProcBehavior.timesOut) cfg command t₁).2.any
        OsEvent.isKill) = false) ∧
    ((run_scp_transfer expand fs (fun _ => ProcBehavior.timesOut) cfg
        local_path remote_path "upload" recursive t₂).1.success = false ∧
     (run_scp_transfer expand fs (fun _ => ProcBehavior.timesOut) cfg
        local_path remote_path "upload" recursive t₂).1.error =
       some ("Transfer timeout after " ++ toString t₂ ++ " seconds") ∧
     ((run_scp_transfer expand fs (fun _ => ProcBehavior.timesOut) cfg
        local_path remote_path "upload" recursive t₂).2.any OsEvent.isKill) = false) ∧
    ((run_scp_transfer expand fs (fun _ => ProcBehavior.timesOut) cfg
        local_path remote_path "download" recursive t₃).1.success = false ∧
     (run_scp_transfer expand fs (fun _ => ProcBehavior.timesOut) cfg
        local_path remote_path "download" recursive t₃).1.error =
       some ("Transfer timeout after " ++ toString t₃ ++ " seconds") ∧
     ((run_scp_transfer expand fs (fun _ => ProcBehavior.timesOut) cfg
        local_path remote_path "download" recursive t₃).2.any OsEvent.isKill) = false) := by
  refine ⟨?_, ?_, ?_⟩
  · simp [run_ssh_command, hinit, OsEvent.isKill]
  · simp [run_scp_transfer, hinit, hlocal, OsEvent.isKill]
  · simp [run_scp_transfer, hinit, OsEvent.isKill]
    intro x _ _ hx
    subst hx
    rfl

/-- Witness for the amended C5 at concrete inputs. -/
theorem C5_timeout_reports_duration_without_kill_witness :
    ((run_ssh_command id (fun _ => ProcBehavior.timesOut)
        ⟨some "h", some "u", some "k"⟩ "sleep 100" 30).1.success = false ∧
     (run_ssh_command id (fun _ => ProcBehavior.timesOut)
        ⟨some "h", some "u", some "k"⟩ "sleep 100" 30).1.error =
       some ("timeout:(" ++ toString 30 ++ "sec)") ∧
     (run_ssh_command id (fun _ => ProcBehavior.timesOut)
        ⟨some "h", some "u", some "k"⟩ "sleep 100" 30).2 ≠ [] ∧
     ((run_ssh_command id (fun _ => ProcBehavior.timesOut)
        ⟨some "h", some "u", some "k"⟩ "sleep 100" 30).2.any OsEvent.isKill) = false) ∧
    ((run_scp_transfer id ⟨fun _ => true⟩ (fun _ => ProcBehavior.timesOut)
        ⟨some "h", some "u", some "k"⟩ "/tmp/a" "/rem/b" "upload" false 300).1.success = false ∧
     (run_scp_transfer id ⟨fun _ => true⟩ (fun _ => ProcBehavior.timesOut)
        ⟨some "h", some "u", some "k"⟩ "/tmp/a" "/rem/b" "upload" false 300).1.error =
       some ("Transfer timeout after " ++ toString 300 ++ " seconds") ∧
     ((run_scp_transfer id ⟨fun _ => true⟩ (fun _ => ProcBehavior.timesOut)
        ⟨some "h", some "u", some "k"⟩ "/tmp/a" "/rem/b" "upload" false 300).2.any
          OsEvent.isKill) = false) ∧
    ((run_scp_transfer id ⟨fun _ => true⟩ (fun _ => ProcBehavior.timesOut)
        ⟨some "h", some "u", some "k"⟩ "/tmp/a" "/rem/b" "download" false 120).1.success = false ∧
     (run_scp_transfer id ⟨fun _ => true⟩ (fun _ => ProcBehavior.timesOut)
        ⟨some "h", some "u", some "k"⟩ "/tmp/a" "/rem/b" "download" false 120).1.error =
       some ("Transfer timeout after " ++ toString 120 ++ " seconds") ∧
     ((run_scp_transfer id ⟨fun _ => true⟩ (fun _ => ProcBehavior.timesOut)
        ⟨some "h", some "u", some "k"⟩ "/tmp/a" "/rem/b" "download" false 120).2.any
          OsEvent.isKill) = false) :=
  C5_timeout_reports_duration_without_kill id ⟨fun _ => true⟩
    ⟨some "h", some "u", some "k"⟩ "sleep 100" "/tmp/a" "/rem/b" false 30 300 120
    (by decide) rfl

/-- Counterexample to C9 as stated: the not-initialized failure of
`run_ssh_command` does not carry the command; the not-initialized failure of
`run_scp_transfer` carries neither the operation nor the paths; and the
invalid-direction failure of `run_scp_transfer` likewise carries neither the
operation nor the paths — all three result dicts hold only `success` and
`error`. -/
theorem C9_counterexample_not_initialized_omits_input :
    (run_ssh_command id (fun _ => ProcBehavior.timesOut) ⟨none, none, none⟩ "ls" 30).1.success
      = false ∧
    (run_ssh_command id (fun _ => ProcBehavior.timesOut) ⟨none, none, none⟩ "ls" 30).1.command
      = none ∧
    (run_scp_transfer id ⟨fun _ => true⟩ (fun _ => ProcBehavior.timesOut) ⟨none, none, none⟩
        "/tmp/a" "/rem/b" "upload" false 300).1.success = false ∧
    (run_scp_transfer id ⟨fun _ => true⟩ (fun _ => ProcBehavior.timesOut) ⟨none, none, none⟩
        "/tmp/a" "/rem/b" "upload" false 300).1.operation = none ∧
    (run_scp_transfer id ⟨fun _ => true⟩ (fun _ => ProcBehavior.timesOut) ⟨none, none, none⟩
        "/tmp/a" "/rem/b" "upload" false 300).1.local_path = none ∧
    (run_scp_transfer id ⟨fun _ => true⟩ (fun _ => ProcBehavior.timesOut) ⟨none, none, none⟩
        "/tmp/a" "/rem/b" "upload" false 300).1.remote_path = none ∧
    (run_scp_transfer id ⟨fun _ => true⟩ (fun _ => ProcBehavior.timesOut)
        ⟨some "h", some "u", some "k"⟩
        "/tmp/a" "/rem/b" "sideways" false 300).1.success = false ∧
    (run_scp_transfer id ⟨fun _ => true⟩ (fun _ => ProcBehavior.timesOut)
        ⟨some "h", some "u", some "k"⟩
        "/tmp/a" "/rem/b" "sideways" false 300).1.operation = none ∧
    (run_scp_transfer id ⟨fun _ => true⟩ (fun _ => ProcBehavior.timesOut)
        ⟨some "h", some "u", some "k"⟩
        "/tmp/a" "/rem/b" "sideways" false 300).1.local_path = none ∧
    (run_scp_transfer id ⟨fun _ => true⟩ (fun _ => ProcBehavior.timesOut)
        ⟨some "h", some "u", some "k"⟩
        "/tmp/a" "/rem/b" "sideways" false 300).1.remote_path = none := by
  decide

/-- C9 (amended): failure results other than the not-initialized and
invalid-direction ones carry the original input: the timeout and exception
failures of `run_ssh_command` carry the command; the timeout and exception
failures of `run_scp_transfer` carry the operation description and both paths,
for uploads and downloads alike; and the missing-local-path upload failure
carries the operation description, which embeds both paths.  The
not-initialized and invalid-direction failures carry only `success` and
`error` (the invalid-direction case is the final conjunct; the not-initialized
case is the counterexample and C3). -/
theorem C9_other_failures_carry_input (expand : String → String) (fs : FileSystem)
    (cfg : SshConfig) (command local_path remote_path direction msg : String)
    (recursive spawned : Bool) (t₁ t₂ : Nat)
    (hinit : sshInitialized cfg = true) :
    (run_ssh_command expand (fun _ => ProcBehavior.timesOut) cfg command t₁).1.command =
      some command ∧
    (run_ssh_command expand (fun _ => ProcBehavior.raises spawned msg) cfg command t₁).1.command =
      some command ∧
    (fs.pathExists local_path = true →
      (run_scp_transfer expand fs (fun _ => ProcBehavior.timesOut) cfg
          local_path remote_path "upload" recursive t₂).1.operation =
        some ("Upload " ++ local_path ++ " -> " ++ remote_location cfg remote_path) ∧
      (run_scp_transfer expand fs (fun _ => ProcBehavior.timesOut) cfg
          local_path remote_path "upload" recursive t₂).1.local_path = some local_path ∧
      (run_scp_transfer expand fs (fun _ => ProcBehavior.timesOut) cfg
          local_path remote_path "upload" recursive t₂).1.remote_path = some remote_path ∧
      (run_scp_transfer expand fs (fun _ => ProcBehavior.raises spawned msg) cfg
          local_path remote_path "upload" recursive t₂).1.operation =
        some ("Upload " ++ local_path ++ " -> " ++ remote_location cfg remote_path) ∧
      (run_scp_transfer expand fs (fun _ => ProcBehavior.raises spawned msg) cfg
          local_path remote_path "upload" recursive t₂).1.local_path = some local_path ∧
      (run_scp_transfer expand fs (fun _ => ProcBehavior.raises spawned msg) cfg
          local_path remote_path "upload" recursive t₂).1.remote_path = some remote_path) ∧
    ((run_scp_transfer expand fs (fun _ => ProcBehavior.timesOut) cfg
          local_path remote_path "download" recursive t₂).1.operation =
        some ("Download " ++ remote_location cfg remote_path ++ " -> " ++ local_path) ∧
      (run_scp_transfer expand fs (fun _ => ProcBehavior.timesOut) cfg
          local_path remote_path "download" recursive t₂).1.local_path = some local_path ∧
      (run_scp_transfer expand fs (fun _ => ProcBehavior.timesOut) cfg
          local_path remote_path "download" recursive t₂).1.remote_path = some remote_path ∧
      (run_scp_transfer expand fs (fun _ => ProcBehavior.raises spawned msg) cfg
          local_path remote_path "download" recursive t₂).1.operation =
        some ("Download " ++ remote_location cfg remote_path ++ " -> " ++ local_path) ∧
      (run_scp_transfer expand fs (fun _ => ProcBehavior.raises spawned msg) cfg
          local_path remote_path "download" recursive t₂).1.local_path = some local_path ∧
      (run_scp_transfer expand fs (fun _ => ProcBehavior.raises spawned msg) cfg
          local_path remote_path "download" recursive t₂).1.remote_path = some remote_path) ∧
    (fs.pathExists local_path = false →
      (run_scp_transfer expand fs (fun _ => ProcBehavior.timesOut) cfg
          local_path remote_path "upload" recursive t₂).1.error =
        some ("Local path does not exist: " ++ local_path) ∧
      (run_scp_transfer expand fs (fun _ => ProcBehavior.timesOut) cfg
          local_path remote_path "upload" recursive t₂).1.operation =
        some ("Upload " ++ local_path ++ " -> " ++ remote_location cfg remote_path)) ∧
    ((direction == "upload") = false → (direction == "download") = false →
      run_scp_transfer expand fs (fun _ => ProcBehavior.timesOut) cfg
          local_path remote_path direction recursive t₂ =
        ({ success := false,
           error := some "Invalid direction. Must be \"upload\" or \"download\"." }, [])) := by
  refine ⟨?_, ?_, fun hl => ?_, ?_, fun hl => ?_, fun hd1 hd2 => ?_⟩
  · simp [run_ssh_command, hinit]
  · simp [run_ssh_command, hinit]
  · refine ⟨?_, ?_, ?_, ?_, ?_, ?_⟩ <;> simp [run_scp_transfer, hinit, hl]
  · refine ⟨?_, ?_, ?_, ?_, ?_, ?_⟩ <;> simp [run_scp_transfer, hinit]
  · constructor <;> simp [run_scp_transfer, hinit, hl]
  · simp [run_scp_transfer, hinit, hd1, hd2]

/-- Witness for the amended C9 at concrete inputs (both filesystem branches,
both directions, and an invalid direction). -/
theorem C9_other_failures_carry_input_witness :
    ((run_ssh_command id (fun _ => ProcBehavior.timesOut)
        ⟨some "h", some "u", some "k"⟩ "ls" 30).1.command = some "ls" ∧
     (run_ssh_command id (fun _ => ProcBehavior.raises true "boom")
        ⟨some "h", some "u", some "k"⟩ "ls" 30).1.command = some "ls" ∧
     (run_scp_transfer id ⟨fun _ => true⟩ (fun _ => ProcBehavior.timesOut)
        ⟨some "h", some "u", some "k"⟩ "/tmp/a" "/rem/b" "upload" false 300).1.operation =
       some ("Upload " ++ "/tmp/a" ++ " -> " ++
         remote_location ⟨some "h", some "u", some "k"⟩ "/rem/b") ∧
     (run_scp_transfer id ⟨fun _ => true⟩ (fun _ => ProcBehavior.timesOut)
        ⟨some "h", some "u", some "k"⟩ "/tmp/a" "/rem/b" "download" false 300).1.operation =
       some ("Download " ++ remote_location ⟨some "h", some "u", some "k"⟩ "/rem/b" ++
         " -> " ++ "/tmp/a")) ∧
    ((run_scp_transfer id ⟨fun _ => false⟩ (fun _ => ProcBehavior.timesOut)
        ⟨some "h", some "u", some "k"⟩ "/tmp/a" "/rem/b" "upload" false 300).1.error =
       some ("Local path does not exist: " ++ "/tmp/a")) ∧
    (run_scp_transfer id ⟨fun _ => true⟩ (fun _ => ProcBehavior.timesOut)
        ⟨some "h", some "u", some "k"⟩ "/tmp/a" "/rem/b" "sideways" false 300 =
      ({ success := false,
         error := some "Invalid direction. Must be \"upload\" or \"download\"." }, [])) :=
  ⟨⟨(C9_other_failures_carry_input id ⟨fun _ => true⟩ ⟨some "h", some "u", some "k"⟩
       "ls" "/tmp/a" "/rem/b" "upload" "boom" false true 30 300 (by decide)).1,
    (C9_other_failures_carry_input id ⟨fun _ => true⟩ ⟨some "h", some "u", some "k"⟩
       "ls" "/tmp/a" "/rem/b" "upload" "boom" false true 30 300 (by decide)).2.1,
    ((C9_other_failures_carry_input id ⟨fun _ => true⟩ ⟨some "h", some "u", some "k"⟩
       "ls" "/tmp/a" "/rem/b" "upload" "boom" false true 30 300 (by decide)).2.2.1 rfl).1,
    (C9_other_failures_carry_input id ⟨fun _ => true⟩ ⟨some "h", some "u", some "k"⟩
       "ls" "/tmp/a" "/rem/b" "upload" "boom" false true 30 300 (by decide)).2.2.2.1.1⟩,
   ((C9_other_failures_carry_input id ⟨fun _ => false⟩ ⟨some "h", some "u", some "k"⟩
       "ls" "/tmp/a" "/rem/b" "upload" "boom" false true 30 300 (by decide)).2.2.2.2.1 rfl).1,
   (C9_other_failures_carry_input id ⟨fun _ => true⟩ ⟨some "h", some "u", some "k"⟩
       "ls" "/tmp/a" "/rem/b" "sideways" "boom" false true 30 300
       (by decide)).2.2.2.2.2 (by decide) (by decide)⟩

/-- C6: `set_slurm_defaults` clears the mapping (its result is independent of
the prior state and rebuilds from empty), inserts `account`, then merges the
keyword arguments; the returned summary enumerates the resulting pairs in
insertion order; consequently after two successive calls every key of the
resulting state comes from the second call's arguments only. -/
theorem C6_set_defaults_clear_insert_merge (cfg cfg₀ cfg₁ : List (String × String))
    (account a₁ a₂ : String) (kwargs kw₁ kw₂ : List (String × String)) (k : String) :
    (set_slurm_defaults cfg account kwargs).1 =
      dictUpdate (dictInsert [] "account" account) kwargs ∧
    (set_slurm_defaults cfg account kwargs).2 =
      "Slurm defaults set: " ++
        configSummary ((set_slurm_defaults cfg account kwargs).1) ++ "." ∧
    set_slurm_defaults cfg account kwargs = set_slurm_defaults cfg₀ account kwargs ∧
    (dictContains ((set_slurm_defaults ((set_slurm_defaults cfg₁ a₁ kw₁).1) a₂ kw₂).1) k
        = true →
      k = "account" ∨ kw₂.any (fun kv => kv.1 == k) = true) := by
  refine ⟨rfl, rfl, rfl, fun h => ?_⟩
  have hstate : (set_slurm_defaults ((set_slurm_defaults cfg₁ a₁ kw₁).1) a₂ kw₂).1 =
      dictUpdate (dictInsert [] "account" a₂) kw₂ := rfl
  rw [hstate, dictContains_dictUpdate, dictContains_dictInsert] at h
  simp only [dictContains, List.any_nil, Bool.false_or, Bool.or_eq_true] at h
  rcases h with h | h
  · exact Or.inl (beq_iff_eq.mp h).symm
  · exact Or.inr h

/-- Witness for C6: a key set only in the first call is judged through the
implication at a concrete pair of calls. -/
theorem C6_set_defaults_clear_insert_merge_witness :
    ((set_slurm_defaults [("stale", "x")] "m1234" [("queue", "regular")]).1 =
      dictUpdate (dictInsert [] "account" "m1234") [("queue", "regular")]) ∧
    ("queue" = "account" ∨
      ([("queue", "regular")].any (fun kv => kv.1 == "queue")) = true) :=
  ⟨(C6_set_defaults_clear_insert_merge [("stale", "x")] [] [("old", "1")]
      "m1234" "a1" "m1234" [("queue", "regular")] [("constraint", "gpu")]
      [("queue", "regular")] "queue").1,
   (C6_set_defaults_clear_insert_merge [("stale", "x")] [] [("old", "1")]
      "m1234" "a1" "m1234" [("queue", "regular")] [("constraint", "gpu")]
      [("queue", "regular")] "queue").2.2.2 (by decide)⟩

/-- C8: `add_slurm_defaults` with empty keyword arguments is a no-op returning
the no-op message; otherwise it merges into the existing mapping — every key not
among the arguments keeps its previous value, argument keys get their argument
value, the key order is the old order followed by the genuinely new keys — and
it returns the full resulting summary. -/
theorem C8_add_defaults_merge_frame (cfg kwargs : List (String × String))
    (k v : String) :
    (kwargs = [] →
      add_slurm_defaults cfg kwargs =
        (cfg, "No attributes provided to add. Please provide key-value pairs.")) ∧
    (add_slurm_defaults cfg kwargs).1 = dictUpdate cfg kwargs ∧
    (kwargs.any (fun kv => kv.1 == k) = false →
      dictGet (add_slurm_defaults cfg kwargs).1 k = dictGet cfg k) ∧
    (kwargs.Pairwise (fun a b => a.1 ≠ b.1) → (k, v) ∈ kwargs →
      dictGet (add_slurm_defaults cfg kwargs).1 k = some v) ∧
    (kwargs ≠ [] →
      (add_slurm_defaults cfg kwargs).2 =
        "Slurm defaults updated. Current config is now: " ++
          configSummary (dictUpdate cfg kwargs) ++ ".") ∧
    (kwargs.Pairwise (fun a b => a.1 ≠ b.1) →
      (add_slurm_defaults cfg kwargs).1.map Prod.fst =
        cfg.map Prod.fst ++
          (kwargs.map Prod.fst).filter (fun key => !(dictContains cfg key))) := by
  have hstate : (add_slurm_defaults cfg kwargs).1 = dictUpdate cfg kwargs := by
    by_cases hk : kwargs.isEmpty
    · rw [List.isEmpty_iff] at hk
      subst hk
      rfl
    · simp [add_slurm_defaults, hk]
  refine ⟨fun hk => ?_, hstate, fun h => ?_, fun hd hm => ?_, fun hk => ?_, fun hd => ?_⟩
  · subst hk
    rfl
  · rw [hstate]
    exact dictGet_dictUpdate_not_mem cfg kwargs k h
  · rw [hstate]
    exact dictGet_dictUpdate_mem cfg kwargs k v hd hm
  · have hke : kwargs.isEmpty = false := by
      cases kwargs with
      | nil => exact absurd rfl hk
      | cons a l => rfl
    simp [add_slurm_defaults, hke]
  · rw [hstate]
    exact keys_dictUpdate cfg kwargs hd

/-- Witness for C8: the spec's own example — `setDefaults(account="m1234",
queue="regular")` then `addDefaults(constraint="gpu")` keeps `account` and
`queue` and appends `constraint`. -/
theorem C8_add_defaults_merge_frame_witness :
    (add_slurm_defaults [("account", "m1234"), ("queue", "regular")] [] =
      ([("account", "m1234"), ("queue", "regular")],
       "No attributes provided to add. Please provide key-value pairs.")) ∧
    (dictGet (add_slurm_defaults [("account", "m1234"), ("queue", "regular")]
        [("constraint", "gpu")]).1 "queue" =
      dictGet [("account", "m1234"), ("queue", "regular")] "queue") ∧
    (dictGet (add_slurm_defaults [("account", "m1234"), ("queue", "regular")]
        [("constraint", "gpu")]).1 "constraint" = some "gpu") ∧
    ((add_slurm_defaults [("account", "m1234"), ("queue", "regular")]
        [("constraint", "gpu")]).2 =
      "Slurm defaults updated. Current config is now: " ++
        configSummary (dictUpdate [("account", "m1234"), ("queue", "regular")]
          [("constraint", "gpu")]) ++ ".") ∧
    ((add_slurm_defaults [("account", "m1234"), ("queue", "regular")]
        [("constraint", "gpu")]).1.map Prod.fst =
      ["account", "queue"] ++
        (["constraint"].filter
          (fun key => !(dictContains [("account", "m1234"), ("queue", "regular")] key)))) :=
  ⟨(C8_add_defaults_merge_frame [("account", "m1234"), ("queue", "regular")] []
      "queue" "gpu").1 rfl,
   (C8_add_defaults_merge_frame [("account", "m1234"), ("queue", "regular")]
      [("constraint", "gpu")] "queue" "gpu").2.2.1 (by decide),
   (C8_add_defaults_merge_frame [("account", "m1234"), ("queue", "regular")]
      [("constraint", "gpu")] "constraint" "gpu").2.2.2.1 (by decide) (by decide),
   (C8_add_defaults_merge_frame [("account", "m1234"), ("queue", "regular")]
      [("constraint", "gpu")] "constraint" "gpu").2.2.2.2.1 (by decide),
   (C8_add_defaults_merge_frame [("account", "m1234"), ("queue", "regular")]
      [("constraint", "gpu")] "constraint" "gpu").2.2.2.2.2 (by decide)⟩

/-- Counterexample to C10 as stated: the claim needs a body state in which the
`kwargs` dict contains the key `account` alongside a separately bound `account`
argument, but Python keyword binding makes that unreachable — at the concrete
call mapping `{"account": "override", "queue": "regular"}`, binding strips the
`account` entry into the named parameter, the `kwargs` reaching the body
contains no `account` key, and the stored account equals the bound argument
(not a value merged from `kwargs`). -/
theorem C10_counterexample_binding_strips_account :
    bindSetSlurmDefaultsArgs [("account", "override"), ("queue", "regular")] =
      Except.ok ("override", [("queue", "regular")]) ∧
    set_slurm_defaults_call [] [("account", "override"), ("queue", "regular")] =
      Except.ok ([("account", "override"), ("queue", "regular")],
        "Slurm defaults set: \x27account\x27=\x27override\x27, \x27queue\x27=\x27regular\x27.") ∧
    dictGet (set_slurm_defaults [] "override" [("queue", "regular")]).1 "account" =
      some "override" :=
  ⟨rfl, rfl, by decide⟩

/-- C10 (amended): inside `set_slurm_defaults` the merge of `kwargs` does run
after the `account` insertion, but Python keyword binding guarantees `kwargs`
can never contain the key `account` — an `account` entry of the call's keyword
mapping binds the named parameter (and a call without one raises `TypeError`
before the body runs) — so the stored account always equals the bound account
argument and is never overwritten by the merge. -/
theorem C10_bound_account_never_overwritten (cfg args : List (String × String))
    (account : String) (hacct : dictGet args "account" = some account) :
    bindSetSlurmDefaultsArgs args =
      Except.ok (account, args.filter (fun kv => !(kv.1 == "account"))) ∧
    (args.filter (fun kv => !(kv.1 == "account"))).any (fun kv => kv.1 == "account") = false ∧
    set_slurm_defaults_call cfg args =
      Except.ok (set_slurm_defaults cfg account
        (args.filter (fun kv => !(kv.1 == "account")))) ∧
    dictGet (set_slurm_defaults cfg account
        (args.filter (fun kv => !(kv.1 == "account")))).1 "account" = some account := by
  have hbind : bindSetSlurmDefaultsArgs args =
      Except.ok (account, args.filter (fun kv => !(kv.1 == "account"))) := by
    unfold bindSetSlurmDefaultsArgs
    rw [hacct]
  have hnone : (args.filter (fun kv => !(kv.1 == "account"))).any
      (fun kv => kv.1 == "account") = false := by
    rw [List.any_eq_false]
    intro kv hkv
    have hf := (List.mem_filter.mp hkv).2
    simpa using hf
  refine ⟨hbind, hnone, ?_, ?_⟩
  · unfold set_slurm_defaults_call
    rw [hbind]
  · have hstate : (set_slurm_defaults cfg account
        (args.filter (fun kv => !(kv.1 == "account")))).1 =
        dictUpdate (dictInsert [] "account" account)
          (args.filter (fun kv => !(kv.1 == "account"))) := rfl
    rw [hstate, dictGet_dictUpdate_not_mem _ _ _ hnone, dictGet_dictInsert_self]

/-- Witness for the amended C10 at the concrete call mapping of the
counterexample. -/
theorem C10_bound_account_never_overwritten_witness :
    bindSetSlurmDefaultsArgs [("account", "override"), ("queue", "regular")] =
      Except.ok ("override",
        ([("account", "override"), ("queue", "regular")]).filter
          (fun kv => !(kv.1 == "account"))) ∧
    ([("account", "override"), ("queue", "regular")].filter
        (fun kv => !(kv.1 == "account"))).any (fun kv => kv.1 == "account") = false ∧
    set_slurm_defaults_call [("stale", "x")] [("account", "override"), ("queue", "regular")] =
      Except.ok (set_slurm_defaults [("stale", "x")] "override"
        (([("account", "override"), ("queue", "regular")]).filter
          (fun kv => !(kv.1 == "account")))) ∧
    dictGet (set_slurm_defaults [("stale", "x")] "override"
        (([("account", "override"), ("queue", "regular")]).filter
          (fun kv => !(kv.1 == "account")))).1 "account" = some "override" :=
  C10_bound_account_never_overwritten [("stale", "x")]
    [("account", "override"), ("queue", "regular")] "override" (by decide)

theorem dictContains_eq_isSome_dictGet (d : List (String × String)) (k : String) :
    dictContains d k = (dictGet d k).isSome := by
  induction d with
  | nil => rfl
  | cons hd tl ih =>
    obtain ⟨k', v'⟩ := hd
    by_cases h : (k' == k) = true <;> simp [dictContains_cons, dictGet_cons, h, ih]

/-- C7: the cost estimate is `h + m/60 + s/3600` when the time limit parses as
three colon-separated integers and `0` otherwise; generation succeeds for any
time limit once the defaults and the script path are in place, reporting
`nodes * estimate` node-hours; and `nodes = 4` with `"02:00:00"` reports `8.00`. -/
theorem C7_cost_estimate_node_hours (s : String) (h m sec : Int) (fs : FileSystem)
    (cfg : List (String × String)) (job_script_path modules time_limit acct queue : String)
    (nodes : Int) :
    ((splitOnChar ':' s.data).map pyInt = [some h, some m, some sec] →
      _parse_time_to_hours s = (h : ℚ) + (m : ℚ) / 60 + (sec : ℚ) / 3600) ∧
    (parsesAsTriple s = false → _parse_time_to_hours s = 0) ∧
    (dictGet cfg "account" = some acct → dictContains cfg "partition" = true →
      dictGet cfg "queue" = some queue → fs.pathExists job_script_path = true →
      prepare_sbatch_script_perlmutter fs cfg job_script_path modules nodes time_limit =
        Except.ok (PrepResult.okText
          (("VERIFICATION REQUIRED:\n" ++
            "Please review the following sbatch script. This job will use approximately " ++
            fmt2 ((nodes : ℚ) * _parse_time_to_hours time_limit) ++ " node-hours.\n" ++
            "If this looks correct, you can pass the script content to the \x60submit_sbatch_script\x60 tool.") ++
           "\n" ++ "\x60\x60\x60bash\n" ++
           ("#!/bin/bash\n#SBATCH -A " ++ acct ++ "\n#SBATCH -q " ++ queue ++
            "\n#SBATCH -C " ++ (dictGet cfg "constraint").getD "cpu" ++
            "\n#SBATCH -N " ++ toString nodes ++
            "\n#SBATCH -t " ++ time_limit ++ "\n#SBATCH --job-name=mcp_submitted_job\n\n" ++
            modules ++ "\n\necho \"--- Job started at $(date) ---\"\n\n" ++
            "# Execute the user\x27s job script\ndate\nsrun " ++ job_script_path ++
            "\ndate\n\necho \"--- Job finished at $(date) ---\"\n") ++ "\n\x60\x60\x60"))) ∧
    fmt2 ((4 : ℚ) * _parse_time_to_hours "02:00:00") = "8.00" := by
  refine ⟨fun hs => ?_, fun hbad => ?_, fun h1 h2 h3 h4 => ?_, ?_⟩
  · unfold _parse_time_to_hours
    rw [hs]
  · unfold _parse_time_to_hours
    split
    · rename_i h' m' s' heq
      exfalso
      unfold parsesAsTriple at hbad
      rw [heq] at hbad
      simp at hbad
    · rfl
  · have hca : dictContains cfg "account" = true := by
      rw [dictContains_eq_isSome_dictGet, h1]
      rfl
    simp [prepare_sbatch_script_perlmutter, hca, h2, h4, dictGetE, h1, h3]
  · have hp : _parse_time_to_hours "02:00:00" = 2 := by
      have hsplit : (splitOnChar ':' "02:00:00".data).map pyInt = [some 2, some 0, some 0] := by
        decide
      unfold _parse_time_to_hours
      rw [hsplit]
      norm_num
    rw [hp]
    unfold fmt2
    have h8 : ((4 : ℚ) * 2) * 100 = ((800 : Int) : ℚ) := by norm_num
    rw [h8, round_intCast]
    decide

/-- Witness for C7: concrete parses, and concrete generations with the spec's
example (`nodes = 4`, `"02:00:00"`, reporting `8.00`) and with a malformed time
limit (`"abc"`, generation still succeeds). -/
theorem C7_cost_estimate_node_hours_witness :
    (_parse_time_to_hours "02:00:00" =
      ((2 : Int) : ℚ) + ((0 : Int) : ℚ) / 60 + ((0 : Int) : ℚ) / 3600) ∧
    (_parse_time_to_hours "abc" = 0) ∧
    (prepare_sbatch_script_perlmutter ⟨fun _ => true⟩
        [("account", "m1234"), ("partition", "regular"), ("queue", "regular")]
        "/tmp/job.sh" "mods" 4 "02:00:00" =
      Except.ok (PrepResult.okText
        (("VERIFICATION REQUIRED:\n" ++
          "Please review the following sbatch script. This job will use approximately " ++
          fmt2 (((4 : Int) : ℚ) * _parse_time_to_hours "02:00:00") ++ " node-hours.\n" ++
          "If this looks correct, you can pass the script content to the \x60submit_sbatch_script\x60 tool.") ++
         "\n" ++ "\x60\x60\x60bash\n" ++
         ("#!/bin/bash\n#SBATCH -A " ++ "m1234" ++ "\n#SBATCH -q " ++ "regular" ++
          "\n#SBATCH -C " ++
          (dictGet [("account", "m1234"), ("partition", "regular"), ("queue", "regular")]
            "constraint").getD "cpu" ++
          "\n#SBATCH -N " ++ toString (4 : Int) ++
          "\n#SBATCH -t " ++ "02:00:00" ++ "\n#SBATCH --job-name=mcp_submitted_job\n\n" ++
          "mods" ++ "\n\necho \"--- Job started at $(date) ---\"\n\n" ++
          "# Execute the user\x27s job script\ndate\nsrun " ++ "/tmp/job.sh" ++
          "\ndate\n\necho \"--- Job finished at $(date) ---\"\n") ++ "\n\x60\x60\x60"))) ∧
    (prepare_sbatch_script_perlmutter ⟨fun _ => true⟩
        [("account", "m1234"), ("partition", "regular"), ("queue", "regular")]
        "/tmp/job.sh" "mods" 4 "abc" =
      Except.ok (PrepResult.okText
        (("VERIFICATION REQUIRED:\n" ++
          "Please review the following sbatch script. This job will use approximately " ++
          fmt2 (((4 : Int) : ℚ) * _parse_time_to_hours "abc") ++ " node-hours.\n" ++
          "If this looks correct, you can pass the script content to the \x60submit_sbatch_script\x60 tool.") ++
         "\n" ++ "\x60\x60\x60bash\n" ++
         ("#!/bin/bash\n#SBATCH -A " ++ "m1234" ++ "\n#SBATCH -q " ++ "regular" ++
          "\n#SBATCH -C " ++
          (dictGet [("account", "m1234"), ("partition", "regular"), ("queue", "regular")]
            "constraint").getD "cpu" ++
          "\n#SBATCH -N " ++ toString (4 : Int) ++
          "\n#SBATCH -t " ++ "abc" ++ "\n#SBATCH --job-name=mcp_submitted_job\n\n" ++
          "mods" ++ "\n\necho \"--- Job started at $(date) ---\"\n\n" ++
          "# Execute the user\x27s job script\ndate\nsrun " ++ "/tmp/job.sh" ++
          "\ndate\n\necho \"--- Job finished at $(date) ---\"\n") ++ "\n\x60\x60\x60"))) ∧
    fmt2 ((4 : ℚ) * _parse_time_to_hours "02:00:00") = "8.00" :=
  ⟨(C7_cost_estimate_node_hours "02:00:00" 2 0 0 ⟨fun _ => true⟩
      [("account", "m1234"), ("partition", "regular"), ("queue", "regular")]
      "/tmp/job.sh" "mods" "02:00:00" "m1234" "regular" 4).1 (by decide),
   (C7_cost_estimate_node_hours "abc" 0 0 0 ⟨fun _ => true⟩
      [("account", "m1234"), ("partition", "regular"), ("queue", "regular")]
      "/tmp/job.sh" "mods" "abc" "m1234" "regular" 4).2.1 (by decide),
   (C7_cost_estimate_node_hours "02:00:00" 2 0 0 ⟨fun _ => true⟩
      [("account", "m1234"), ("partition", "regular"), ("queue", "regular")]
      "/tmp/job.sh" "mods" "02:00:00" "m1234" "regular" 4).2.2.1
      (by decide) (by decide) (by decide) rfl,
   (C7_cost_estimate_node_hours "abc" 0 0 0 ⟨fun _ => true⟩
      [("account", "m1234"), ("partition", "regular"), ("queue", "regular")]
      "/tmp/job.sh" "mods" "abc" "m1234" "regular" 4).2.2.1
      (by decide) (by decide) (by decide) rfl,
   (C7_cost_estimate_node_hours "02:00:00" 2 0 0 ⟨fun _ => true⟩
      [("account", "m1234"), ("partition", "regular"), ("queue", "regular")]
      "/tmp/job.sh" "mods" "02:00:00" "m1234" "regular" 4).2.2.2⟩
